import Mathlib

/-
  Verification of the AI-feature request pipeline of the blogging platform
  (backend/services/aiService.js).

  Strings of the JavaScript source are modelled as `List Char`; JavaScript
  `toLowerCase` is modelled by ASCII lower-casing (`Char.toLower`), which agrees
  with JavaScript on the ASCII range used by every pattern and category name of
  the source.  Fallible provider calls are modelled by an explicit
  `ProviderOutcome` argument per attempt, and thrown errors by an
  `Except AIError` result together with the list of chat requests issued.
-/

namespace AIService

set_option maxRecDepth 16000

/-- The apostrophe character, built numerically. -/
def apos : Char := Char.ofNat 39

/-- Left brace character. -/
def lbrace : Char := Char.ofNat 123

/-- Right brace character. -/
def rbrace : Char := Char.ofNat 125

/-- ASCII lower-casing of a JavaScript string, modelling `String.prototype.toLowerCase`
on the ASCII range (all refusal patterns and category names are ASCII). -/
def jsToLower (s : List Char) : List Char := s.map Char.toLower

/-- Whitespace recognised by JavaScript `String.prototype.trim`
(restricted to the common ASCII whitespace plus NBSP). -/
def isJsWhitespace (c : Char) : Bool :=
  c = ' ' || c = '\t' || c = '\n' || c = '\r' ||
  c = Char.ofNat 11 || c = Char.ofNat 12 || c = Char.ofNat 160

/-- Model of JavaScript `String.prototype.trim`: drop whitespace at both ends. -/
def jsTrim (s : List Char) : List Char :=
  ((s.dropWhile isJsWhitespace).reverse.dropWhile isJsWhitespace).reverse

/-- Line terminators not matched by an un-flagged `.` in a JavaScript regular
expression: LF, CR, LINE SEPARATOR, PARAGRAPH SEPARATOR. -/
def isJsLineTerminator (c : Char) : Bool :=
  c = '\n' || c = '\r' || c = Char.ofNat 8232 || c = Char.ofNat 8233

/-- The plain-substring refusal patterns of `REFUSAL_PATTERNS`
(every alternative of every regex except `violates.*policy`),
already lower-cased as they appear in the source. -/
def refusalSubstringPatterns : List (List Char) :=
  [ "i cannot".data
  , "i can".data ++ [apos] ++ "t".data
  , "i".data ++ [apos] ++ "m unable".data
  , "i am unable".data
  , "i will not".data
  , "i won".data ++ [apos] ++ "t".data
  , "inappropriate".data
  , "offensive".data
  , "harmful".data
  , "against my guidelines".data
  , "as an ai".data
  , "as a language model".data
  , "i".data ++ [apos] ++ "m not able to".data
  , "i am not able to".data
  , "cannot assist with".data
  , "can".data ++ [apos] ++ "t help with".data
  , "explicit".data
  , "adult content".data
  , "nsfw".data
  ]

/-- Scan for the literal `policy` reachable from the current position through
characters an un-flagged `.` can match (i.e. no line terminator in between).
This models the `.*policy` tail of the regex `/violates.*policy/i`. -/
def searchPolicyTail : List Char → Bool
  | [] => false
  | c :: cs =>
    if List.isPrefixOf ("policy".data) (c :: cs) then true
    else if isJsLineTerminator c then false
    else searchPolicyTail cs

/-- Model of the regex `/violates.*policy/i` on an already lower-cased string:
some occurrence of `violates` is followed, with no line terminator in between,
by an occurrence of `policy`. -/
def matchesViolatesPolicy : List Char → Bool
  | [] => false
  | c :: cs =>
    (List.isPrefixOf ("violates".data) (c :: cs)
        && searchPolicyTail ((c :: cs).drop ("violates".data).length))
      || matchesViolatesPolicy cs

/-- Substring test: `p` occurs contiguously somewhere in `s`. -/
def occursIn (p : List Char) : List Char → Bool
  | [] => List.isPrefixOf p []
  | c :: cs => List.isPrefixOf p (c :: cs) || occursIn p cs

/-- `REFUSAL_PATTERNS.some(pattern => pattern.test(checkText))` on an already
lower-cased `checkText`: some fixed pattern matches somewhere in the string. -/
def matchesRefusalPatterns (s : List Char) : Bool :=
  refusalSubstringPatterns.any (fun p => occursIn p s) || matchesViolatesPolicy s

/-- Model of `isContentRefusal` from the source: a response shorter than 10
characters is never a refusal; otherwise only the first 200 characters,
lower-cased, are tested against the fixed pattern set.  (The JavaScript
falsiness test `!response` is subsumed by the length test for strings.) -/
def isContentRefusal (response : List Char) : Bool :=
  if response.length < 10 then false
  else matchesRefusalPatterns (jsToLower (response.take 200))

/-- `FALLBACK_MODEL` from the source. -/
def FALLBACK_MODEL : List Char := "llama-3.1-8b-instant".data

/-- `MODELS.FAST` from the source. -/
def MODELS_FAST : List Char := "llama-3.1-8b-instant".data

/-- `MODELS.BALANCED` from the source. -/
def MODELS_BALANCED : List Char := "llama-3.3-70b-versatile".data

/-- One chat-completion request as issued to the provider: the message pair,
the model, and the fixed decoding parameters. -/
structure ChatRequest where
  systemPrompt : List Char
  userPrompt : List Char
  model : List Char
  temperature : ℚ
  maxTokens : ℕ
deriving DecidableEq

/-- The aspects of a provider-thrown error inspected by `makeCompletion`:
whether `error.message` includes the substrings checked by the source, and
whether `error.code` equals the checked code. -/
structure ProviderError where
  msgHasContentFilter : Bool
  msgHasModeration : Bool
  codeIsPolicyViolation : Bool
deriving DecidableEq

/-- Outcome of one provider call: a completion (with
`choices[0]?.message?.content` possibly absent, modelled by `none`),
or a thrown error. -/
inductive ProviderOutcome where
  | success (content : Option (List Char))
  | failure (e : ProviderError)
deriving DecidableEq

/-- The errors `makeCompletion` can throw: `ContentModerationError`
(a distinguished class in the source) or a plain `Error` with a message. -/
inductive AIError where
  | contentModeration (message : List Char)
  | generic (message : List Char)
deriving DecidableEq

/-- Message of the `ContentModerationError` raised on a detected refusal. -/
def refusalErrorMessage : List Char :=
  "The AI could not process this content due to safety guidelines. Please ensure your content is appropriate and try again.".data

/-- Message of the `ContentModerationError` raised on API-level content filtering. -/
def apiFilterErrorMessage : List Char :=
  "Your content was flagged by safety filters. Please modify your content and try again.".data

/-- Message of the generic error raised when the provider is unavailable. -/
def unavailableMessage : List Char := "AI service temporarily unavailable".data

/-- The API-level content-filtering test of the outer catch block:
`error.message` includes `content_filter` or `moderation`, or
`error.code === 'content_policy_violation'`. -/
def apiModerationFlagged (e : ProviderError) : Bool :=
  e.msgHasContentFilter || e.msgHasModeration || e.codeIsPolicyViolation

/-- Model of `makeCompletion` from the source.  `first` is the outcome of the
primary provider call and `second` the outcome the provider would give a
fallback call.  The result pairs the value returned / error thrown with the
list of chat requests actually issued, in order. -/
def makeCompletion (systemPrompt userPrompt : List Char) (model : List Char)
    (first second : ProviderOutcome) : Except AIError (List Char) × List ChatRequest :=
  let req1 : ChatRequest := ⟨systemPrompt, userPrompt, model, 7/10, 1024⟩
  match first with
  | .success content =>
    let response := content.getD []
    if isContentRefusal response then
      (.error (.contentModeration refusalErrorMessage), [req1])
    else
      (.ok response, [req1])
  | .failure e =>
    if apiModerationFlagged e then
      (.error (.contentModeration apiFilterErrorMessage), [req1])
    else if model = FALLBACK_MODEL then
      (.error (.generic unavailableMessage), [req1])
    else
      let req2 : ChatRequest := ⟨systemPrompt, userPrompt, FALLBACK_MODEL, 7/10, 1024⟩
      match second with
      | .success content =>
        let fallbackResponse := content.getD []
        if isContentRefusal fallbackResponse then
          (.error (.contentModeration refusalErrorMessage), [req1, req2])
        else
          (.ok fallbackResponse, [req1, req2])
      | .failure _ => (.error (.generic unavailableMessage), [req1, req2])

/-- JSON values as produced by `JSON.parse`.  Numeric literals are kept as
their raw token (the source never inspects a numeric value: non-string array
elements and non-conforming objects only ever flow into further string
operations that throw, or are returned untouched). -/
inductive Json where
  | null
  | bool (b : Bool)
  | num (raw : List Char)
  | str (s : List Char)
  | arr (elems : List Json)
  | obj (fields : List (List Char × Json))

/-- JSON insignificant whitespace. -/
def isJsonWs (c : Char) : Bool :=
  c = ' ' || c = '\t' || c = '\n' || c = '\r'

/-- Value of one hexadecimal digit. -/
def hexDigitVal (c : Char) : Option Nat :=
  if '0' ≤ c ∧ c ≤ '9' then some (c.toNat - '0'.toNat)
  else if 'a' ≤ c ∧ c ≤ 'f' then some (c.toNat - 'a'.toNat + 10)
  else if 'A' ≤ c ∧ c ≤ 'F' then some (c.toNat - 'A'.toNat + 10)
  else none

/-- Decimal digit test. -/
def isDigitChar (c : Char) : Bool := '0' ≤ c && c ≤ '9'

/-- Parse the remainder of a JSON string literal (the opening quote already
consumed), returning its contents and the input after the closing quote.
Handles the JSON escapes; unescaped control characters are rejected as by
`JSON.parse`. -/
def parseStringRest (s : List Char) : Option (List Char × List Char) :=
  match s with
  | [] => none
  | c :: cs =>
    if c = '"' then some ([], cs)
    else if c = '\\' then
      match cs with
      | [] => none
      | e :: es =>
        if e = '"' ∨ e = '\\' ∨ e = '/' then
          (parseStringRest es).map (fun r => (e :: r.1, r.2))
        else if e = 'b' then (parseStringRest es).map (fun r => (Char.ofNat 8 :: r.1, r.2))
        else if e = 'f' then (parseStringRest es).map (fun r => (Char.ofNat 12 :: r.1, r.2))
        else if e = 'n' then (parseStringRest es).map (fun r => ('\n' :: r.1, r.2))
        else if e = 'r' then (parseStringRest es).map (fun r => ('\r' :: r.1, r.2))
        else if e = 't' then (parseStringRest es).map (fun r => ('\t' :: r.1, r.2))
        else if e = 'u' then
          match es with
          | h1 :: h2 :: h3 :: h4 :: rest =>
            match hexDigitVal h1, hexDigitVal h2, hexDigitVal h3, hexDigitVal h4 with
            | some v1, some v2, some v3, some v4 =>
              (parseStringRest rest).map
                (fun r => (Char.ofNat (((v1 * 16 + v2) * 16 + v3) * 16 + v4) :: r.1, r.2))
            | _, _, _, _ => none
          | _ => none
        else none
    else if c.toNat < 32 then none
    else (parseStringRest cs).map (fun r => (c :: r.1, r.2))

/-- Parse the digit run and optional fraction/exponent of a JSON number, the
leading sign and first integer digit(s) already validated by the caller;
returns the raw consumed characters and the rest. -/
def parseNumberTail (s : List Char) : List Char × List Char :=
  let intRest := s.takeWhile isDigitChar
  let afterInt := s.dropWhile isDigitChar
  match afterInt with
  | '.' :: d :: ds =>
    if isDigitChar d then
      let fracDigits := (d :: ds).takeWhile isDigitChar
      let afterFrac := (d :: ds).dropWhile isDigitChar
      match afterFrac with
      | e :: rest =>
        if e = 'e' ∨ e = 'E' then
          match rest with
          | sgn :: d2 :: ds2 =>
            if (sgn = '+' ∨ sgn = '-') ∧ isDigitChar d2 then
              (intRest ++ '.' :: fracDigits ++ e :: sgn :: (d2 :: ds2).takeWhile isDigitChar,
               (d2 :: ds2).dropWhile isDigitChar)
            else if isDigitChar sgn then
              (intRest ++ '.' :: fracDigits ++ e :: (sgn :: d2 :: ds2).takeWhile isDigitChar,
               (sgn :: d2 :: ds2).dropWhile isDigitChar)
            else (intRest ++ '.' :: fracDigits, e :: rest)
          | [sgn] =>
            if isDigitChar sgn then (intRest ++ '.' :: fracDigits ++ [e, sgn], [])
            else (intRest ++ '.' :: fracDigits, e :: rest)
          | [] => (intRest ++ '.' :: fracDigits, [e])
        else (intRest ++ '.' :: fracDigits, afterFrac)
      | [] => (intRest ++ '.' :: fracDigits, [])
    else (intRest, afterInt)
  | e :: rest =>
    if e = 'e' ∨ e = 'E' then
      match rest with
      | sgn :: d2 :: ds2 =>
        if (sgn = '+' ∨ sgn = '-') ∧ isDigitChar d2 then
          (intRest ++ e :: sgn :: (d2 :: ds2).takeWhile isDigitChar,
           (d2 :: ds2).dropWhile isDigitChar)
        else if isDigitChar sgn then
          (intRest ++ e :: (sgn :: d2 :: ds2).takeWhile isDigitChar,
           (sgn :: d2 :: ds2).dropWhile isDigitChar)
        else (intRest, afterInt)
      | [sgn] =>
        if isDigitChar sgn then (intRest ++ [e, sgn], []) else (intRest, afterInt)
      | [] => (intRest, afterInt)
    else (intRest, afterInt)
  | [] => (intRest, [])

mutual

/-- Recursive-descent model of `JSON.parse` for one value (fuelled). -/
def parseJsonValue : Nat → List Char → Option (Json × List Char)
  | 0, _ => none
  | Nat.succ fuel, input =>
    match input.dropWhile isJsonWs with
    | [] => none
    | c :: cs =>
      if c = 'n' then
        if List.isPrefixOf "ull".data cs then some (.null, cs.drop 3) else none
      else if c = 't' then
        if List.isPrefixOf "rue".data cs then some (.bool true, cs.drop 3) else none
      else if c = 'f' then
        if List.isPrefixOf "alse".data cs then some (.bool false, cs.drop 4) else none
      else if c = '"' then
        (parseStringRest cs).map (fun r => (.str r.1, r.2))
      else if c = '-' then
        match cs with
        | d :: ds =>
          if d = '0' then
            match ds with
            | d2 :: _ =>
              if isDigitChar d2 then none
              else
                let t := parseNumberTail ds
                some (.num ('-' :: '0' :: t.1), t.2)
            | [] => some (.num ['-', '0'], [])
          else if isDigitChar d then
            let t := parseNumberTail (d :: ds)
            some (.num ('-' :: t.1), t.2)
          else none
        | [] => none
      else if c = '0' then
        match cs with
        | d2 :: _ =>
          if isDigitChar d2 then none
          else
            let t := parseNumberTail cs
            some (.num ('0' :: t.1), t.2)
        | [] => some (.num ['0'], [])
      else if isDigitChar c then
        let t := parseNumberTail (c :: cs)
        some (.num t.1, t.2)
      else if c = '[' then
        match cs.dropWhile isJsonWs with
        | c2 :: cs2 =>
          if c2 = ']' then some (.arr [], cs2)
          else
            (parseJsonElems fuel (c2 :: cs2)).map (fun r => (.arr r.1, r.2))
        | [] => none
      else if c = lbrace then
        match cs.dropWhile isJsonWs with
        | c2 :: cs2 =>
          if c2 = rbrace then some (.obj [], cs2)
          else
            (parseJsonFields fuel (c2 :: cs2)).map (fun r => (.obj r.1, r.2))
        | [] => none
      else none

/-- Parse one or more comma-separated JSON array elements followed by `]`. -/
def parseJsonElems : Nat → List Char → Option (List Json × List Char)
  | 0, _ => none
  | Nat.succ fuel, input =>
    match parseJsonValue fuel input with
    | none => none
    | some (v, rest) =>
      match rest.dropWhile isJsonWs with
      | c :: cs =>
        if c = ']' then some ([v], cs)
        else if c = ',' then
          (parseJsonElems fuel cs).map (fun r => (v :: r.1, r.2))
        else none
      | [] => none

/-- Parse one or more comma-separated JSON object members followed by the
closing brace. -/
def parseJsonFields : Nat → List Char → Option (List (List Char × Json) × List Char)
  | 0, _ => none
  | Nat.succ fuel, input =>
    match input.dropWhile isJsonWs with
    | c :: cs =>
      if c = '"' then
        match parseStringRest cs with
        | none => none
        | some (key, rest) =>
          match rest.dropWhile isJsonWs with
          | ':' :: rest2 =>
            match parseJsonValue fuel rest2 with
            | none => none
            | some (v, rest3) =>
              match rest3.dropWhile isJsonWs with
              | c2 :: cs2 =>
                if c2 = rbrace then some ([(key, v)], cs2)
                else if c2 = ',' then
                  (parseJsonFields fuel cs2).map (fun r => ((key, v) :: r.1, r.2))
                else none
              | [] => none
          | _ => none
      else none
    | [] => none

end

/-- Model of `JSON.parse`: parse one value surrounded by optional whitespace;
trailing garbage makes the parse fail. -/
def jsonParse (s : List Char) : Option Json :=
  match parseJsonValue (2 * s.length + 2) s with
  | some (v, rest) => if rest.dropWhile isJsonWs = [] then some v else none
  | none => none

/-- Index of the last element satisfying `p`, if any. -/
def lastIdxOf (p : Char → Bool) (s : List Char) : Option Nat :=
  match s.reverse.findIdx? p with
  | none => none
  | some k => some (s.length - 1 - k)

/-- Model of `response.match(re)[0]` for the two span regexes of the source,
`/\[.*\]/s` and `/\x7b[\s\S]*\x7d/`: both match from the first occurrence of
the opening character through the last occurrence of the closing character
(the dot of the first regex crosses newlines thanks to the `s` flag, and
`[\s\S]` always does), provided the closing one occurs after the opening one. -/
def regexSpan (openChar closeChar : Char) (s : List Char) : Option (List Char) :=
  match s.findIdx? (fun c => c = openChar), lastIdxOf (fun c => c = closeChar) s with
  | some i, some j => if i < j then some ((s.drop i).take (j - i + 1)) else none
  | _, _ => none

/-- The `jsonMatch[0]` of `response.match(/\[.*\]/s)`. -/
def matchBracketSpan (s : List Char) : Option (List Char) := regexSpan '[' ']' s

/-- The `jsonMatch[0]` of the brace-span regex used by `improveText` and
`grammarCheck`. -/
def matchBraceSpan (s : List Char) : Option (List Char) := regexSpan lbrace rbrace s

/-- `tag.toLowerCase().trim()` from `generateTags`. -/
def jsLowerTrim (tag : List Char) : List Char := jsTrim (jsToLower tag)

/-- The string payload of a JSON value, if it is a string. -/
def Json.asString : Json → Option (List Char)
  | .str s => some s
  | _ => none

/-- Whether a JSON value is a string. -/
def Json.isString : Json → Bool
  | .str _ => true
  | _ => false

/-- The parsing stage of `generateTags` applied to a completion: locate the
bracket span, `JSON.parse` it, `slice(0, maxTags)`, then map
`tag.toLowerCase().trim()` over the kept elements.  A missing span or a parse
failure yields `[]`; a non-string element among the kept ones makes the map
throw, which the surrounding catch also turns into `[]`. -/
def generateTags_extract (response : List Char) (maxTags : Nat) : List (List Char) :=
  match matchBracketSpan response with
  | none => []
  | some span =>
    match jsonParse span with
    | some (.arr tags) =>
      let kept := tags.take maxTags
      if kept.all Json.isString then
        kept.map (fun t => jsLowerTrim (t.asString.getD []))
      else []
    | _ => []

/-- The parsing stage of `generateTitles`: locate the bracket span, parse, and
`slice(0, count)`; the elements are returned as parsed, without mapping. -/
def generateTitles_extract (response : List Char) (count : Nat) : List Json :=
  match matchBracketSpan response with
  | none => []
  | some span =>
    match jsonParse span with
    | some (.arr titles) => titles.take count
    | _ => []

/-- The default object of `improveText`: echoes the input text with an empty
change list. -/
def improveDefault (text : List Char) : Json :=
  .obj [("improved".data, .str text), ("changes".data, .arr [])]

/-- The default object of `grammarCheck`: echoes the input text with an empty
error list. -/
def grammarDefault (text : List Char) : Json :=
  .obj [("corrected".data, .str text), ("errors".data, .arr [])]

/-- The parsing stage of `improveText`: parse the first-to-last brace span and
return the parsed JSON untouched; a missing span or a parse failure falls back
to the default object. -/
def improveText_extract (text response : List Char) : Json :=
  match matchBraceSpan response with
  | none => improveDefault text
  | some span => (jsonParse span).getD (improveDefault text)

/-- The parsing stage of `grammarCheck`, analogous to `improveText`. -/
def grammarCheck_extract (text response : List Char) : Json :=
  match matchBraceSpan response with
  | none => grammarDefault text
  | some span => (jsonParse span).getD (grammarDefault text)

/-- The fixed category list of `getCategory`. -/
def categories : List (List Char) :=
  [ "Technology".data, "Programming".data, "Web Development".data
  , "Mobile Development".data, "Data Science".data, "AI/Machine Learning".data
  , "DevOps".data, "Cybersecurity".data, "Business".data, "Marketing".data
  , "Design".data, "Lifestyle".data, "Travel".data, "Food".data
  , "Health".data, "Education".data, "Finance".data, "Entertainment".data
  , "Sports".data, "Other".data ]

/-- The validation stage of `getCategory`: trim the completion, look it up
case-insensitively among the fixed categories, default to `Other`. -/
def getCategory_extract (response : List Char) : List Char :=
  let category := jsTrim response
  match categories.find? (fun c => jsToLower c = jsToLower category) with
  | some m => m
  | none => "Other".data

/-- Start of the `generateTags` user prompt, before the embedded content. -/
def tagsUserHeader : List Char := "Extract tags from this blog content:\n\n".data

/-- The `generateTags` user prompt: header plus content truncated to 3000. -/
def generateTags_userPrompt (content : List Char) : List Char :=
  tagsUserHeader ++ content.take 3000

/-- The `generateTags` system prompt. -/
def generateTags_systemPrompt (maxTags : Nat) : List Char :=
  "You are a content tagging expert. Extract the most relevant tags from the given blog content.\n\nRules:\n- Return ONLY a JSON array of strings, no explanation\n- Tags should be lowercase, single words or short phrases\n- Maximum ".data
    ++ (toString maxTags).data
    ++ " tags\n- Focus on main topics, technologies, concepts\n- Make tags SEO-friendly and searchable\n\nExample output: [\"javascript\", \"web development\", \"react\", \"frontend\", \"tutorial\"]".data

/-- Start of the `generateSummary` user prompt. -/
def summaryUserHeader : List Char := "Summarize this blog content:\n\n".data

/-- The `generateSummary` user prompt: header plus content truncated to 4000. -/
def generateSummary_userPrompt (content : List Char) : List Char :=
  summaryUserHeader ++ content.take 4000

/-- The `lengthInstructions` lookup of `generateSummary`, with the
short default for unknown keys. -/
def lengthInstructions (length : List Char) : List Char :=
  if length = "short".data then "1-2 sentences, under 50 words".data
  else if length = "medium".data then "A paragraph, around 100 words".data
  else if length = "long".data then "Detailed summary, around 200 words".data
  else "1-2 sentences, under 50 words".data

/-- The `generateSummary` system prompt. -/
def generateSummary_systemPrompt (length : List Char) : List Char :=
  "You are a content summarizer. Create a ".data ++ length
    ++ " summary.\n\nRules:\n- Length: ".data ++ lengthInstructions length
    ++ "\n- Capture the main points and key takeaways\n- Write in third person\n- Be concise and informative\n- Return ONLY the summary text, no labels or prefixes".data

/-- The `generateTitles` user prompt: count interpolation, header, content
truncated to 2000. -/
def generateTitles_userPrompt (count : Nat) (content : List Char) : List Char :=
  "Generate ".data ++ (toString count).data
    ++ " title options for this blog:\n\n".data ++ content.take 2000

/-- The `generateTitles` system prompt. -/
def generateTitles_systemPrompt (count : Nat) : List Char :=
  "You are a headline expert. Generate catchy, SEO-optimized blog titles.\n\nRules:\n- Return ONLY a JSON array of strings\n- Generate exactly ".data
    ++ (toString count).data
    ++ " different title options\n- Titles should be engaging and click-worthy\n- Keep titles under 70 characters\n- Use power words and numbers when appropriate\n- Vary the style (question, how-to, listicle, etc.)\n\nExample output: [\"10 Ways to Master JavaScript\", \"The Ultimate Guide to Web Development\", \"Why React is Taking Over in 2024\"]".data

/-- The `expandText` system prompt. -/
def expandText_systemPrompt (tone : List Char) : List Char :=
  "You are a writing assistant. Expand the given text into a fuller, more detailed version.\n\nRules:\n- Maintain the original meaning and intent\n- Use a ".data
    ++ tone
    ++ " tone\n- Add relevant details, examples, or explanations\n- Double or triple the length naturally\n- Return ONLY the expanded text, no labels".data

/-- The `expandText` user prompt: the raw text, embedded with no truncation. -/
def expandText_userPrompt (text : List Char) : List Char := text

/-- The `improveText` system prompt. -/
def improveText_systemPrompt : List Char :=
  "You are a professional editor. Improve the given text for clarity, grammar, and style.\n\nReturn a JSON object with:\n- \"improved\": the improved version of the text\n- \"changes\": array of changes made (max 5)\n\nExample output:\n\x7b\n  \"improved\": \"The improved text here...\",\n  \"changes\": [\"Fixed grammar in sentence 2\", \"Improved clarity\", \"Added transition words\"]\n\x7d".data

/-- The `improveText` user prompt: the raw text, embedded with no truncation. -/
def improveText_userPrompt (text : List Char) : List Char := text

/-- The `changeTone` system prompt. -/
def changeTone_systemPrompt (targetTone : List Char) : List Char :=
  "You are a writing assistant. Rewrite the given text in a ".data ++ targetTone
    ++ " tone.\n\nRules:\n- Keep the same meaning and information\n- Adjust vocabulary and sentence structure for the ".data
    ++ targetTone ++ " tone\n- Return ONLY the rewritten text".data

/-- The `changeTone` user prompt: the raw text, embedded with no truncation. -/
def changeTone_userPrompt (text : List Char) : List Char := text

/-- The `continueWriting` system prompt. -/
def continueWriting_systemPrompt (sentences : Nat) : List Char :=
  "You are a writing assistant. Continue the given text naturally.\n\nRules:\n- Add approximately ".data
    ++ (toString sentences).data
    ++ " more sentences\n- Match the existing writing style and tone\n- Continue the thought or topic logically\n- Return ONLY the continuation (not the original text)".data

/-- The `continueWriting` user prompt: the raw text, embedded with no truncation. -/
def continueWriting_userPrompt (text : List Char) : List Char := text

/-- The `grammarCheck` system prompt. -/
def grammarCheck_systemPrompt : List Char :=
  "You are a grammar and spelling checker. Analyze the text for errors.\n\nReturn a JSON object with:\n- \"corrected\": the corrected text\n- \"errors\": array of errors found, each with:\n  - \"original\": the incorrect text\n  - \"correction\": the fix\n  - \"type\": \"grammar\" | \"spelling\" | \"punctuation\" | \"style\"\n\nIf no errors found, return empty errors array.\n\nExample:\n\x7b\n  \"corrected\": \"The cat sat on the mat.\",\n  \"errors\": [\x7b\"original\": \"sitted\", \"correction\": \"sat\", \"type\": \"grammar\"\x7d]\n\x7d".data

/-- The `grammarCheck` user prompt: the raw text, embedded with no truncation. -/
def grammarCheck_userPrompt (text : List Char) : List Char := text

/-- The `getCategory` system prompt. -/
def getCategory_systemPrompt : List Char :=
  "You are a content classifier. Classify the given content into ONE of these categories:\nTechnology, Programming, Web Development, Mobile Development, Data Science, AI/Machine Learning, DevOps, Cybersecurity, Business, Marketing, Design, Lifestyle, Travel, Food, Health, Education, Finance, Entertainment, Sports, Other\n\nRules:\n- Return ONLY the category name, nothing else\n- Choose the most relevant category\n- If unsure, use \"Other\"".data

/-- Start of the `getCategory` user prompt. -/
def categoryUserHeader : List Char := "Classify this content:\n\n".data

/-- The `getCategory` user prompt: header plus content truncated to 2000. -/
def getCategory_userPrompt (content : List Char) : List Char :=
  categoryUserHeader ++ content.take 2000

/-- `generateTags` end to end, given the provider outcomes of the two possible
calls: the whole body sits in a try/catch whose catch returns `[]`, so every
error thrown by `makeCompletion` degrades to the empty array. -/
def generateTags_run (content : List Char) (maxTags : Nat)
    (first second : ProviderOutcome) : List (List Char) :=
  match (makeCompletion (generateTags_systemPrompt maxTags)
      (generateTags_userPrompt content) MODELS_FAST first second).1 with
  | .ok response => generateTags_extract response maxTags
  | .error _ => []

/-- `generateSummary` end to end: the completion result is returned directly,
errors thrown by `makeCompletion` propagate. -/
def generateSummary_run (content length : List Char)
    (first second : ProviderOutcome) : Except AIError (List Char) :=
  (makeCompletion (generateSummary_systemPrompt length)
    (generateSummary_userPrompt content) MODELS_FAST first second).1

/-- `generateTitles` end to end: every error degrades to the empty array. -/
def generateTitles_run (content : List Char) (count : Nat)
    (first second : ProviderOutcome) : List Json :=
  match (makeCompletion (generateTitles_systemPrompt count)
      (generateTitles_userPrompt count content) MODELS_FAST first second).1 with
  | .ok response => generateTitles_extract response count
  | .error _ => []

/-- `expandText` end to end: errors propagate (plain-text operation). -/
def expandText_run (text tone : List Char)
    (first second : ProviderOutcome) : Except AIError (List Char) :=
  (makeCompletion (expandText_systemPrompt tone) (expandText_userPrompt text)
    MODELS_BALANCED first second).1

/-- `improveText` end to end: every error degrades to the default object. -/
def improveText_run (text : List Char)
    (first second : ProviderOutcome) : Json :=
  match (makeCompletion improveText_systemPrompt (improveText_userPrompt text)
      MODELS_BALANCED first second).1 with
  | .ok response => improveText_extract text response
  | .error _ => improveDefault text

/-- `grammarCheck` end to end: every error degrades to the default object. -/
def grammarCheck_run (text : List Char)
    (first second : ProviderOutcome) : Json :=
  match (makeCompletion grammarCheck_systemPrompt (grammarCheck_userPrompt text)
      MODELS_FAST first second).1 with
  | .ok response => grammarCheck_extract text response
  | .error _ => grammarDefault text

/-- `getCategory` end to end: every error degrades to `Other`. -/
def getCategory_run (content : List Char)
    (first second : ProviderOutcome) : List Char :=
  match (makeCompletion getCategory_systemPrompt (getCategory_userPrompt content)
      MODELS_FAST first second).1 with
  | .ok response => getCategory_extract response
  | .error _ => "Other".data

/-- Field access on a parsed JSON object as JavaScript sees it after
`JSON.parse`: with duplicate keys, the last occurrence wins. -/
def jsField (fields : List (List Char × Json)) (key : List Char) : Option Json :=
  (fields.reverse.find? (fun kv => kv.1 = key)).map (fun kv => kv.2)

/-- Conformance of a value to the declared `improveText` result shape:
an object with a string `improved` and a `changes` array of strings. -/
def conformsImprove (v : Json) : Bool :=
  match v with
  | .obj fields =>
    (match jsField fields "improved".data with
      | some (.str _) => true
      | _ => false)
    && (match jsField fields "changes".data with
      | some (.arr l) => l.all Json.isString
      | _ => false)
  | _ => false

/-- Conformance of one entry of the declared `grammarCheck` error list:
an object with string fields `original`, `correction` and `type`. -/
def conformsGrammarEntry (v : Json) : Bool :=
  match v with
  | .obj fields =>
    (match jsField fields "original".data with
      | some (.str _) => true
      | _ => false)
    && (match jsField fields "correction".data with
      | some (.str _) => true
      | _ => false)
    && (match jsField fields "type".data with
      | some (.str _) => true
      | _ => false)
  | _ => false

/-- Conformance of a value to the declared `grammarCheck` result shape:
an object with a string `corrected` and an `errors` array of conforming
entries. -/
def conformsGrammar (v : Json) : Bool :=
  match v with
  | .obj fields =>
    (match jsField fields "corrected".data with
      | some (.str _) => true
      | _ => false)
    && (match jsField fields "errors".data with
      | some (.arr l) => l.all conformsGrammarEntry
      | _ => false)
  | _ => false

/-- Claim C4: the refusal classifier reports a moderation outcome iff the
completion is at least 10 characters long and its first 200 characters,
lower-cased, match at least one pattern of the fixed refusal-pattern set;
moreover on any completion split as a 200-character prefix followed by
arbitrary text, the outcome is decided by the prefix alone: a non-matching
prefix never yields a moderation outcome whatever follows, and a matching
prefix always does. -/
theorem C4_refusal_classifier :
    (∀ r : List Char, isContentRefusal r = true ↔
      10 ≤ r.length ∧ matchesRefusalPatterns (jsToLower (r.take 200)) = true)
  ∧ (∀ s t : List Char, s.length = 200 →
      matchesRefusalPatterns (jsToLower s) = false →
      isContentRefusal (s ++ t) = false)
  ∧ (∀ s t : List Char, s.length = 200 →
      matchesRefusalPatterns (jsToLower s) = true →
      isContentRefusal (s ++ t) = true) := by
  have htake : ∀ s t : List Char, s.length = 200 → (s ++ t).take 200 = s := by
    intro s t hs
    rw [← hs]
    exact List.take_left s t
  refine ⟨fun r => ?_, fun s t hs hm => ?_, fun s t hs hm => ?_⟩
  · unfold isContentRefusal
    by_cases h : r.length < 10
    · rw [if_pos h]
      constructor
      · intro hfalse; exact absurd hfalse (by simp)
      · intro hand; omega
    · rw [if_neg h]
      have h10 : 10 ≤ r.length := Nat.le_of_not_lt h
      constructor
      · intro hm; exact ⟨h10, hm⟩
      · intro hand; exact hand.2
  · unfold isContentRefusal
    rw [if_neg (by simp [hs]; omega), htake s t hs]
    exact hm
  · unfold isContentRefusal
    rw [if_neg (by simp [hs]; omega), htake s t hs]
    exact hm

/-- Witness for C4 at a concrete input: a 200-character completion starting
with a first-person refusal phrase is classified as a refusal regardless of
the text appended after character 200. -/
theorem C4_refusal_classifier_witness :
    isContentRefusal
      (("I cannot help with that request because".data
          ++ List.replicate 161 ' ') ++ "perfectly harmless tail".data) = true :=
  C4_refusal_classifier.2.2
    ("I cannot help with that request because".data ++ List.replicate 161 ' ')
    "perfectly harmless tail".data
    (by decide)
    (by decide)

/-- Claim C10: a provider response with a missing or empty completion text
makes `makeCompletion` succeed with the empty string (so a plain-text
operation such as summarization returns the empty string as a success); and
a completion shorter than 10 characters is never classified as a refusal,
even when it consists entirely of a refusal keyword such as `nsfw`. -/
theorem C10_empty_completion :
    (∀ sys usr model second,
      (makeCompletion sys usr model (.success none) second).1 = .ok [])
  ∧ (∀ sys usr model second,
      (makeCompletion sys usr model (.success (some [])) second).1 = .ok [])
  ∧ (∀ content length second,
      generateSummary_run content length (.success none) second = .ok [])
  ∧ (∀ r : List Char, r.length < 10 → isContentRefusal r = false)
  ∧ isContentRefusal "nsfw".data = false := by
  refine ⟨fun _ _ _ _ => rfl, fun _ _ _ _ => rfl, fun _ _ _ => rfl,
    fun r h => ?_, by decide⟩
  unfold isContentRefusal
  rw [if_pos h]

/-- Witness for C10 at a concrete input: the four-character completion `nsfw`
is not classified as a refusal. -/
theorem C10_empty_completion_witness :
    isContentRefusal "nsfw".data = false :=
  C10_empty_completion.2.2.2.1 "nsfw".data (by decide)

/-- A completion the classifier flags as a refusal, used as concrete input. -/
def refusalCompletion : List Char :=
  "I cannot help with that request because it is inappropriate.".data

/-- Claim C2: every invocation of `makeCompletion` issues at most two provider
calls, and whenever the primary completion is classified as a moderation
refusal, exactly one provider call is issued and `ContentModerationError` is
raised immediately, with no fallback attempt. -/
theorem C2_call_budget :
    (∀ sys usr model first second,
      (makeCompletion sys usr model first second).2.length ≤ 2)
  ∧ (∀ sys usr model c second,
      isContentRefusal (c.getD []) = true →
      (makeCompletion sys usr model (.success c) second).1
          = .error (.contentModeration refusalErrorMessage)
      ∧ (makeCompletion sys usr model (.success c) second).2.length = 1) := by
  constructor
  · intro sys usr model first second
    rcases first with c | e
    · by_cases h : isContentRefusal (c.getD []) <;> simp [makeCompletion, h]
    · by_cases hf : apiModerationFlagged e
      · simp [makeCompletion, hf]
      · by_cases hm : model = FALLBACK_MODEL
        · simp [makeCompletion, hf, hm]
        · rcases second with c2 | e2
          · by_cases h2 : isContentRefusal (c2.getD []) <;>
              simp [makeCompletion, hf, hm, h2]
          · simp [makeCompletion, hf, hm]
  · intro sys usr model c second h
    simp [makeCompletion, h]

/-- Witness for C2 at a concrete input: a refusal completion on the primary
call yields `ContentModerationError` after a single provider call. -/
theorem C2_call_budget_witness :
    (makeCompletion "sys".data "usr".data MODELS_BALANCED
        (.success (some refusalCompletion)) (.failure ⟨false, false, false⟩)).1
      = .error (.contentModeration refusalErrorMessage)
    ∧ (makeCompletion "sys".data "usr".data MODELS_BALANCED
        (.success (some refusalCompletion)) (.failure ⟨false, false, false⟩)).2.length = 1 :=
  C2_call_budget.2 "sys".data "usr".data MODELS_BALANCED
    (some refusalCompletion) (.failure ⟨false, false, false⟩) (by decide)

/-- Claim C3: on a primary-call failure that is not a moderation refusal, with
a primary model different from the fallback model, `makeCompletion` issues
exactly one additional provider call using the fixed fallback model with the
identical system and user prompts and the same decoding parameters
(temperature 7/10, 1024 max tokens); if the fallback call also fails for a
non-moderation reason, or if the primary model already equals the fallback
model (in which case no second call is issued), the generic error with message
`AI service temporarily unavailable` is raised. -/
theorem C3_fallback_retry :
    ∀ sys usr model first second e, first = .failure e →
      apiModerationFlagged e = false →
      ((model ≠ FALLBACK_MODEL →
        (makeCompletion sys usr model first second).2
            = [⟨sys, usr, model, 7/10, 1024⟩, ⟨sys, usr, FALLBACK_MODEL, 7/10, 1024⟩]
        ∧ ∀ e2, second = .failure e2 →
            (makeCompletion sys usr model first second).1
              = .error (.generic unavailableMessage))
      ∧ (model = FALLBACK_MODEL →
        (makeCompletion sys usr model first second).1
            = .error (.generic unavailableMessage)
        ∧ (makeCompletion sys usr model first second).2
            = [⟨sys, usr, model, 7/10, 1024⟩])) := by
  intro sys usr model first second e hfirst hflag
  subst hfirst
  constructor
  · intro hne
    constructor
    · rcases second with c2 | e2
      · by_cases h2 : isContentRefusal (c2.getD []) <;>
          simp [makeCompletion, hflag, hne, h2]
      · simp [makeCompletion, hflag, hne]
    · intro e2 hsec
      subst hsec
      simp [makeCompletion, hflag, hne]
  · intro hmeq
    simp [makeCompletion, hflag, hmeq]

/-- Witness for C3 at a concrete input: a non-moderation failure of the
balanced primary model followed by a non-moderation failure of the fallback
produces exactly the two requests (second one on the fallback model with the
same prompts and parameters) and the generic unavailable error. -/
theorem C3_fallback_retry_witness :
    (makeCompletion "sys".data "usr".data MODELS_BALANCED
        (.failure ⟨false, false, false⟩) (.failure ⟨false, false, false⟩)).2
      = [⟨"sys".data, "usr".data, MODELS_BALANCED, 7/10, 1024⟩,
         ⟨"sys".data, "usr".data, FALLBACK_MODEL, 7/10, 1024⟩]
    ∧ (makeCompletion "sys".data "usr".data MODELS_BALANCED
        (.failure ⟨false, false, false⟩) (.failure ⟨false, false, false⟩)).1
      = .error (.generic unavailableMessage) := by
  have h := (C3_fallback_retry "sys".data "usr".data MODELS_BALANCED
    (.failure ⟨false, false, false⟩) (.failure ⟨false, false, false⟩)
    ⟨false, false, false⟩ rfl (by decide)).1 (by decide)
  exact ⟨h.1, h.2 ⟨false, false, false⟩ rfl⟩

/-- Claim C5: tag extraction takes the first-bracket-to-last-bracket span,
parses it as a JSON array, truncates to `maxTags`, and lower-cases and trims
each kept element in order; a missing span or a failed parse yields the empty
array; and on the concrete completion of the spec the result is
`react`, `node.js`. -/
theorem C5_tag_extraction :
    (∀ r maxTags, matchBracketSpan r = none → generateTags_extract r maxTags = [])
  ∧ (∀ r maxTags span, matchBracketSpan r = some span → jsonParse span = none →
      generateTags_extract r maxTags = [])
  ∧ (∀ r maxTags span (ss : List (List Char)),
      matchBracketSpan r = some span →
      jsonParse span = some (.arr (ss.map Json.str)) →
      generateTags_extract r maxTags = (ss.take maxTags).map jsLowerTrim)
  ∧ generateTags_extract "Here are tags: [\"react\", \"Node.js\", \"Web-Dev\"]".data 2
      = ["react".data, "node.js".data] := by
  refine ⟨fun r maxTags h => ?_, fun r maxTags span hs hp => ?_,
    fun r maxTags span ss hs hp => ?_, by decide⟩
  · simp [generateTags_extract, h]
  · simp [generateTags_extract, hs, hp]
  · have hall : ((List.map Json.str ss).take maxTags).all Json.isString = true := by
      rw [List.all_eq_true]
      intro x hx
      obtain ⟨s, -, rfl⟩ := List.mem_map.mp (List.mem_of_mem_take hx)
      rfl
    simp only [generateTags_extract, hs, hp]
    rw [if_pos hall, ← List.map_take, List.map_map]
    exact List.map_congr_left fun s _ => rfl

/-- Witness for C5 at a concrete input: a completion with no bracketed span
yields the empty tag list. -/
theorem C5_tag_extraction_witness :
    generateTags_extract "no json here at all".data 5 = [] :=
  C5_tag_extraction.1 "no json here at all".data 5 (by decide)

/-- Claim C6: on a completion lacking any brace-delimited span, or whose
brace span is malformed JSON, improve-text returns exactly the object echoing
the original input with an empty change list, and grammar-check returns
exactly the object echoing the original input with an empty error list,
without raising. -/
theorem C6_object_defaults :
    (∀ text r, matchBraceSpan r = none →
      improveText_extract text r
        = .obj [("improved".data, .str text), ("changes".data, .arr [])])
  ∧ (∀ text r span, matchBraceSpan r = some span → jsonParse span = none →
      improveText_extract text r
        = .obj [("improved".data, .str text), ("changes".data, .arr [])])
  ∧ (∀ text r, matchBraceSpan r = none →
      grammarCheck_extract text r
        = .obj [("corrected".data, .str text), ("errors".data, .arr [])])
  ∧ (∀ text r span, matchBraceSpan r = some span → jsonParse span = none →
      grammarCheck_extract text r
        = .obj [("corrected".data, .str text), ("errors".data, .arr [])]) := by
  refine ⟨fun text r h => ?_, fun text r span hs hp => ?_,
    fun text r h => ?_, fun text r span hs hp => ?_⟩
  · simp [improveText_extract, h, improveDefault]
  · simp [improveText_extract, hs, hp, improveDefault]
  · simp [grammarCheck_extract, h, grammarDefault]
  · simp [grammarCheck_extract, hs, hp, grammarDefault]

/-- Witness for C6 at a concrete input: a completion with no braces makes
improve-text echo the original text with an empty change list. -/
theorem C6_object_defaults_witness :
    improveText_extract "Original text".data "no braces in this completion".data
      = .obj [("improved".data, .str "Original text".data), ("changes".data, .arr [])] :=
  C6_object_defaults.1 "Original text".data "no braces in this completion".data (by decide)

/-- Auxiliary: `find?` with a case-insensitive key over a list whose
lower-cased elements are pairwise distinct returns exactly the member whose
lower-casing equals the target. -/
theorem find_lowercase_key (l : List (List Char)) (c target : List Char)
    (hp : l.Pairwise (fun a b => jsToLower a ≠ jsToLower b))
    (hc : c ∈ l) (ht : jsToLower c = target) :
    l.find? (fun x => decide (jsToLower x = target)) = some c := by
  induction l with
  | nil => cases hc
  | cons a as ih =>
    rcases List.mem_cons.mp hc with rfl | hmem
    · rw [List.find?_cons_of_pos]
      simp [ht]
    · have hne : jsToLower a ≠ target := by
        have h1 := (List.pairwise_cons.mp hp).1 c hmem
        rw [ht] at h1
        exact h1
      rw [List.find?_cons_of_neg]
      · exact ih (List.pairwise_cons.mp hp).2 hmem
      · simp [hne]

/-- Claim C8: categorization trims the completion, compares it
case-insensitively against the fixed closed set of 20 category names,
returns the canonical name on a match and `Other` on no match; in particular
`  web development  ` yields `Web Development` and `quantum knitting`
yields `Other`. -/
theorem C8_category_matching :
    (∀ r c, c ∈ categories → jsToLower c = jsToLower (jsTrim r) →
      getCategory_extract r = c)
  ∧ (∀ r, (∀ c ∈ categories, jsToLower c ≠ jsToLower (jsTrim r)) →
      getCategory_extract r = "Other".data)
  ∧ categories.length = 20
  ∧ getCategory_extract "  web development  ".data = "Web Development".data
  ∧ getCategory_extract "quantum knitting".data = "Other".data := by
  refine ⟨fun r c hc ht => ?_, fun r h => ?_, by decide, by decide, by decide⟩
  · have hfind := find_lowercase_key categories c (jsToLower (jsTrim r)) (by decide) hc ht
    simp [getCategory_extract, hfind]
  · have hfind : categories.find?
        (fun x => decide (jsToLower x = jsToLower (jsTrim r))) = none := by
      rw [List.find?_eq_none]
      intro x hx
      simp [h x hx]
    simp [getCategory_extract, hfind]

/-- Witness for C8 at a concrete input: the completion `  TECHNOLOGY ` matches
the canonical category `Technology` case-insensitively after trimming. -/
theorem C8_category_matching_witness :
    getCategory_extract "  TECHNOLOGY ".data = "Technology".data :=
  C8_category_matching.1 "  TECHNOLOGY ".data "Technology".data (by decide) (by decide)

/-- Counterexample to claim C1 at a concrete input: on a primary completion
classified as a moderation refusal, the Completion Invoker does raise
`ContentModerationError`, but tag-generation swallows it and returns the
empty array instead of propagating the typed error. -/
theorem C1_counterexample :
    (makeCompletion (generateTags_systemPrompt 5)
        (generateTags_userPrompt "a blog post about testing".data) MODELS_FAST
        (.success (some refusalCompletion)) (.failure ⟨false, false, false⟩)).1
      = .error (.contentModeration refusalErrorMessage)
    ∧ generateTags_run "a blog post about testing".data 5
        (.success (some refusalCompletion)) (.failure ⟨false, false, false⟩) = [] :=
  ⟨rfl, rfl⟩

/-- Claim C1 as amended: the array- and object-shaped operations
(tag-generation, title-generation, improve, grammar-check, categorization)
wrap the whole invocation in a catch-all and degrade EVERY error raised by
the Completion Invoker — `ContentModerationError` and the generic
unavailable error alike — to the operation's default value (empty array,
echo object, `Other`); typed errors propagate to the caller only from the
plain-text operations, here witnessed by summarization. -/
theorem C1_error_swallowing :
    (∀ content maxTags first second e,
      (makeCompletion (generateTags_systemPrompt maxTags)
          (generateTags_userPrompt content) MODELS_FAST first second).1 = .error e →
      generateTags_run content maxTags first second = [])
  ∧ (∀ content count first second e,
      (makeCompletion (generateTitles_systemPrompt count)
          (generateTitles_userPrompt count content) MODELS_FAST first second).1 = .error e →
      generateTitles_run content count first second = [])
  ∧ (∀ text first second e,
      (makeCompletion improveText_systemPrompt (improveText_userPrompt text)
          MODELS_BALANCED first second).1 = .error e →
      improveText_run text first second = improveDefault text)
  ∧ (∀ text first second e,
      (makeCompletion grammarCheck_systemPrompt (grammarCheck_userPrompt text)
          MODELS_FAST first second).1 = .error e →
      grammarCheck_run text first second = grammarDefault text)
  ∧ (∀ content first second e,
      (makeCompletion getCategory_systemPrompt (getCategory_userPrompt content)
          MODELS_FAST first second).1 = .error e →
      getCategory_run content first second = "Other".data)
  ∧ (∀ content length first second e,
      (makeCompletion (generateSummary_systemPrompt length)
          (generateSummary_userPrompt content) MODELS_FAST first second).1 = .error e →
      generateSummary_run content length first second = .error e) := by
  refine ⟨fun content maxTags first second e h => ?_,
    fun content count first second e h => ?_,
    fun text first second e h => ?_,
    fun text first second e h => ?_,
    fun content first second e h => ?_,
    fun content length first second e h => ?_⟩
  · simp [generateTags_run, h]
  · simp [generateTitles_run, h]
  · simp [improveText_run, h]
  · simp [grammarCheck_run, h]
  · simp [getCategory_run, h]
  · simp [generateSummary_run, h]

/-- Witness for the amended C1 at a concrete input: a non-moderation provider
failure makes tag-generation return the empty array rather than an error. -/
theorem C1_error_swallowing_witness :
    generateTags_run "a post".data 5 (.failure ⟨false, false, false⟩)
        (.failure ⟨false, false, false⟩) = [] :=
  C1_error_swallowing.1 "a post".data 5 (.failure ⟨false, false, false⟩)
    (.failure ⟨false, false, false⟩) (.generic unavailableMessage) rfl

/-- Counterexample to claim C7 at a concrete input: a completion whose brace
span parses as an object with none of the declared fields is returned by
improve-text as parsed, so the result does not conform to the declared
structured shape — no validation happens. -/
theorem C7_counterexample :
    conformsImprove (improveText_extract "Some text".data
      "\x7b\"note\": \"no declared fields here\"\x7d".data) = false := by
  decide

/-- Claim C7 as amended: the fallback default objects of improve and
grammar-check do conform to the declared structured shapes, but any
parseable brace span is returned exactly as parsed, without validation
against the operation's declared result shape; the result therefore conforms
only when the completion's own JSON already has that shape. -/
theorem C7_no_validation :
    (∀ text, conformsImprove (improveDefault text) = true)
  ∧ (∀ text, conformsGrammar (grammarDefault text) = true)
  ∧ (∀ text r span v, matchBraceSpan r = some span → jsonParse span = some v →
      improveText_extract text r = v)
  ∧ (∀ text r span v, matchBraceSpan r = some span → jsonParse span = some v →
      grammarCheck_extract text r = v) := by
  refine ⟨fun text => rfl, fun text => rfl,
    fun text r span v hs hp => ?_, fun text r span v hs hp => ?_⟩
  · simp [improveText_extract, hs, hp]
  · simp [grammarCheck_extract, hs, hp]

/-- Witness for the amended C7 at a concrete input: a parseable brace span
with a single undeclared field is returned as parsed. -/
theorem C7_no_validation_witness :
    improveText_extract "Some text".data "\x7b\"a\": \"b\"\x7d".data
      = .obj [("a".data, .str "b".data)] :=
  C7_no_validation.2.2.1 "Some text".data "\x7b\"a\": \"b\"\x7d".data
    "\x7b\"a\": \"b\"\x7d".data (.obj [("a".data, .str "b".data)]) rfl rfl

/-- Counterexample to claim C9 at a concrete input: the expand operation
embeds a 4001-character text in the user prompt in full, exceeding every
per-operation truncation budget in the claimed 2000-4000 range — the
writing-assistant operations do not truncate at all. -/
theorem C9_counterexample :
    4000 < (expandText_userPrompt (List.replicate 4001 'a')).length
    ∧ expandText_userPrompt (List.replicate 4001 'a') = List.replicate 4001 'a' := by
  constructor
  · have h : expandText_userPrompt (List.replicate 4001 'a')
        = List.replicate 4001 'a' := rfl
    rw [h, List.length_replicate]
    omega
  · rfl

/-- Claim C9 as amended: prompt construction is total (never throws); for the
four content-analysis operations the embedded content is truncated to the
operation-specific budget (tags 3000, summary 4000, titles 2000, category
2000) and any content under the budget appears verbatim; the
writing-assistant operations (expand, improve, tone-change, continue,
grammar-check) embed the caller's text verbatim with no truncation at all. -/
theorem C9_prompt_truncation :
    (∀ content : List Char, content.length ≤ 3000 →
      generateTags_userPrompt content = tagsUserHeader ++ content)
  ∧ (∀ content : List Char,
      (generateTags_userPrompt content).length ≤ tagsUserHeader.length + 3000)
  ∧ (∀ content : List Char, content.length ≤ 4000 →
      generateSummary_userPrompt content = summaryUserHeader ++ content)
  ∧ (∀ content : List Char,
      (generateSummary_userPrompt content).length ≤ summaryUserHeader.length + 4000)
  ∧ (∀ (count : Nat) (content : List Char), content.length ≤ 2000 →
      generateTitles_userPrompt count content
        = "Generate ".data ++ (toString count).data
            ++ " title options for this blog:\n\n".data ++ content)
  ∧ (∀ (count : Nat) (content : List Char),
      (generateTitles_userPrompt count content).length
        ≤ "Generate ".data.length + (toString count).data.length
            + " title options for this blog:\n\n".data.length + 2000)
  ∧ (∀ content : List Char, content.length ≤ 2000 →
      getCategory_userPrompt content = categoryUserHeader ++ content)
  ∧ (∀ content : List Char,
      (getCategory_userPrompt content).length ≤ categoryUserHeader.length + 2000)
  ∧ (∀ text : List Char, expandText_userPrompt text = text
      ∧ improveText_userPrompt text = text
      ∧ changeTone_userPrompt text = text
      ∧ continueWriting_userPrompt text = text
      ∧ grammarCheck_userPrompt text = text) := by
  refine ⟨fun content h => ?_, fun content => ?_, fun content h => ?_,
    fun content => ?_, fun count content h => ?_, fun count content => ?_,
    fun content h => ?_, fun content => ?_,
    fun text => ⟨rfl, rfl, rfl, rfl, rfl⟩⟩
  · simp [generateTags_userPrompt, List.take_of_length_le h]
  · simp [generateTags_userPrompt, List.length_take]
  · simp [generateSummary_userPrompt, List.take_of_length_le h]
  · simp [generateSummary_userPrompt, List.length_take]
  · simp [generateTitles_userPrompt, List.take_of_length_le h]
  · simp [generateTitles_userPrompt, List.length_take]
    omega
  · simp [getCategory_userPrompt, List.take_of_length_le h]
  · simp [getCategory_userPrompt, List.length_take]

/-- Witness for the amended C9 at a concrete input: a short content appears
verbatim in the tag-generation user prompt. -/
theorem C9_prompt_truncation_witness :
    generateTags_userPrompt "short".data = tagsUserHeader ++ "short".data :=
  C9_prompt_truncation.1 "short".data (by decide)

end AIService
